import Mathlib

/-!
Verification of the NanoSnap photo-editor core against its TypeScript source
(src/components/Editor.tsx, src/services/geminiService.ts, src/App.tsx).

The editor component's React state is embedded as an explicit record
(EditorState) and each handler becomes a pure state-transition function.
The single asynchronous suspension point (the remote generateContent call)
is passed in as an explicit oracle argument, so a handler's behaviour for a
given remote outcome is a total function of the pre-state.
Display-space coordinates are embedded as rationals (exact arithmetic for
the concrete scenarios checked here).
-/

namespace NanoSnap

/-- ImageFile record from src/types (part_000): the working image. The DOM
File object is opaque to the editor logic and is embedded as a bare handle. -/
structure ImageFile where
  file : Nat
  previewUrl : String
  base64 : String
  mimeType : String
deriving DecidableEq, Repr

/-- GeneratedImage record from src/types: a pending (uncommitted) result. -/
structure GeneratedImage where
  imageUrl : String
  prompt : String
  timestamp : Nat
deriving DecidableEq, Repr

/-- EditorStatus enum from src/types. -/
inductive EditorStatus where
  | IDLE
  | UPLOADING
  | READY
  | PROCESSING
  | COMPLETE
  | ERROR
deriving DecidableEq, Repr

/-- The React state of the Editor component (Editor.tsx lines 34-56), with
presentation-only fields (activeTab, customPrompt, isDraggingCrop) omitted
since no modelled transition reads them. -/
structure EditorState where
  history : List ImageFile
  historyIndex : Nat
  currentImage : ImageFile
  generatedImage : Option GeneratedImage
  status : EditorStatus
  errorMessage : Option String
  cropStart : Option (ℚ × ℚ)
  cropEnd : Option (ℚ × ℚ)
  targetObject : String
  editAction : String
deriving DecidableEq, Repr

/-- Initial component state (Editor.tsx lines 36-56): history seeded with the
single initial upload, cursor 0, status READY. -/
def initialEditorState (initialImage : ImageFile) : EditorState :=
  { history := [initialImage]
    historyIndex := 0
    currentImage := initialImage
    generatedImage := none
    status := EditorStatus.READY
    errorMessage := none
    cropStart := none
    cropEnd := none
    targetObject := ""
    editAction := "" }

/-- addToHistory (Editor.tsx lines 59-65): slice(0, historyIndex+1), push the
new image, set the cursor to the new last index, set currentImage. -/
def addToHistory (s : EditorState) (newImage : ImageFile) : EditorState :=
  let newHistory := s.history.take (s.historyIndex + 1) ++ [newImage]
  { s with
      history := newHistory
      historyIndex := newHistory.length - 1
      currentImage := newImage }

/-- undo (Editor.tsx lines 67-74). The source reads history[newIndex]; under
the session invariant the index is in bounds, so the getD default is inert. -/
def undo (s : EditorState) : EditorState :=
  if s.historyIndex > 0 then
    let newIndex := s.historyIndex - 1
    { s with
        historyIndex := newIndex
        currentImage := s.history.getD newIndex s.currentImage
        generatedImage := none }
  else s

/-- redo (Editor.tsx lines 76-83). The JS guard historyIndex < history.length-1
is written historyIndex + 1 < history.length, which agrees with it over the
integers (also when the list is empty, where both reject). -/
def redo (s : EditorState) : EditorState :=
  if s.historyIndex + 1 < s.history.length then
    let newIndex := s.historyIndex + 1
    { s with
        historyIndex := newIndex
        currentImage := s.history.getD newIndex s.currentImage
        generatedImage := none }
  else s

/-- One part of a generateContent response (geminiService.ts lines 56-63):
inlineData carries (mimeType, data) when present; text is the textual part. -/
structure ServicePart where
  inlineData : Option (String × String)
  text : Option String
deriving DecidableEq, Repr

/-- The normalized return value of editImageWithGemini (geminiService.ts
line 21): an optional embeddable image URL and an optional text. -/
structure EditServiceResult where
  imageUrl : Option String
  text : Option String
deriving DecidableEq, Repr

/-- EditConfig (geminiService.ts lines 11-14). -/
structure EditConfig where
  model : Option String
  imageSize : Option String
deriving DecidableEq, Repr

/-- The request assembled by editImageWithGemini and handed to the external
ai.models.generateContent call (geminiService.ts lines 35-51). -/
structure GenerateRequest where
  model : String
  data : String
  mimeType : String
  text : String
  imageSize : Option String
deriving DecidableEq, Repr

/-- The data-URL-prefix strip (geminiService.ts line 26): the anchored regex
replace of data:image\/(png|jpeg|jpg|webp);base64, with alternatives tried in
the source order, at most once, at the start of the string. -/
def cleanBase64 (s : String) : String :=
  if ("data:image/png;base64,").isPrefixOf s then
    s.drop ("data:image/png;base64,").length
  else if ("data:image/jpeg;base64,").isPrefixOf s then
    s.drop ("data:image/jpeg;base64,").length
  else if ("data:image/jpg;base64,").isPrefixOf s then
    s.drop ("data:image/jpg;base64,").length
  else if ("data:image/webp;base64,").isPrefixOf s then
    s.drop ("data:image/webp;base64,").length
  else s

/-- The body of the response loop (geminiService.ts lines 57-63): an inline
data part overwrites the image URL; otherwise a truthy (non-empty) text part
overwrites the text. -/
def scanStep (acc : EditServiceResult) (part : ServicePart) : EditServiceResult :=
  match part.inlineData with
  | some md => { acc with imageUrl := some ("data:" ++ md.1 ++ ";base64," ++ md.2) }
  | none =>
      match part.text with
      | some t => if t.isEmpty then acc else { acc with text := some t }
      | none => acc

/-- Folds the response parts exactly as the for-loop at geminiService.ts
lines 57-63, starting from both results undefined. -/
def scanParts (parts : List ServicePart) : EditServiceResult :=
  parts.foldl scanStep { imageUrl := none, text := none }

/-- editImageWithGemini (geminiService.ts lines 16-72). The awaited external
call is the generateContent oracle: Except.error models a rejected promise
(transport or service failure), Except.ok none models a response without
candidates or parts, Except.ok (some parts) a response with parts. The
source's catch block logs and re-throws, so an oracle error propagates. -/
def editImageWithGemini (base64Image mimeType prompt : String)
    (config : EditConfig)
    (generateContent : GenerateRequest → Except String (Option (List ServicePart))) :
    Except String EditServiceResult :=
  let model := config.model.getD "gemini-2.5-flash-image"
  let clean := cleanBase64 base64Image
  let size := if config.imageSize.isSome ∧ model = "gemini-3-pro-image-preview"
              then config.imageSize else none
  match generateContent
      { model := model, data := clean, mimeType := mimeType,
        text := prompt, imageSize := size } with
  | Except.error e => Except.error e
  | Except.ok none => Except.ok { imageUrl := none, text := none }
  | Except.ok (some parts) => Except.ok (scanParts parts)

/-- The whitespace class stripped by String.prototype.trim, restricted to
the ASCII whitespace characters (the full JS class also strips Unicode
space separators, which do not occur in this development). -/
def jsWhitespace (c : Char) : Bool :=
  c = ' ' || c = '\t' || c = '\n' || c = '\r' || c = '\x0b' || c = '\x0c'

/-- String.prototype.trim: strip leading and trailing whitespace. -/
def jsTrim (s : String) : String :=
  String.mk (((s.data.dropWhile jsWhitespace).reverse.dropWhile jsWhitespace).reverse)

/-- handleGenerate (Editor.tsx lines 104-137). An empty (trimmed) prompt
returns without touching state; otherwise status becomes PROCESSING and the
error message is cleared, the remote call is awaited, and the outcome is
folded into state: an image URL yields a pending GeneratedImage and COMPLETE;
no image URL raises the no-image error; a rejected call is caught, storing
error.message (or the fallback text when the message is empty) and ERROR.
The constructed image URL always starts with data: and is never empty, so
the JS truthiness test on result.imageUrl coincides with presence. -/
def handleGenerate (s : EditorState) (finalPrompt : String) (config : EditConfig)
    (ts : Nat)
    (generateContent : GenerateRequest → Except String (Option (List ServicePart))) :
    EditorState :=
  if (jsTrim finalPrompt).isEmpty then s
  else
    let s1 : EditorState := { s with status := EditorStatus.PROCESSING, errorMessage := none }
    match editImageWithGemini s.currentImage.base64 s.currentImage.mimeType
        finalPrompt config generateContent with
    | Except.ok result =>
        match result.imageUrl with
        | some url =>
            { s1 with
                generatedImage := some { imageUrl := url, prompt := finalPrompt, timestamp := ts }
                status := EditorStatus.COMPLETE }
        | none =>
            { s1 with
                errorMessage := some "The model did not return an image."
                status := EditorStatus.ERROR }
    | Except.error msg =>
        { s1 with
            errorMessage := some (if msg.isEmpty then "Failed to generate image." else msg)
            status := EditorStatus.ERROR }

/-- The attempted match of the unanchored regex data:([^;]+); at one position
of the character list (Editor.tsx line 147): the literal data: followed by at
least one non-semicolon character followed by a semicolon. -/
def dataMimeAt (cs : List Char) : Option (List Char) :=
  match cs with
  | c1 :: c2 :: c3 :: c4 :: c5 :: rest =>
      if c1 = 'd' ∧ c2 = 'a' ∧ c3 = 't' ∧ c4 = 'a' ∧ c5 = ':' then
        let m := rest.takeWhile (fun c => c ≠ ';')
        let r := rest.dropWhile (fun c => c ≠ ';')
        if m.isEmpty then none
        else match r with
          | rc :: _ => if rc = ';' then some m else none
          | [] => none
      else none
  | _ => none

/-- String.prototype.match with a non-global regex scans left to right and
returns the first match; this is that scan for data:([^;]+);. -/
def findDataMime : List Char → Option (List Char)
  | [] => none
  | c :: cs =>
      match dataMimeAt (c :: cs) with
      | some m => some m
      | none => findDataMime cs

/-- The mime extraction in handleUseAsSource (Editor.tsx lines 147-148):
capture group 1 of the first match of data:([^;]+); anywhere in the URL,
defaulting to image/png when the regex matches nowhere. -/
def mimeFromUrl (url : String) : String :=
  match findDataMime url.data with
  | some m => String.mk m
  | none => "image/png"

/-- Follows the spec's words for comparison with mimeFromUrl: the mime type
parsed from the data:<mime>; PREFIX of the URL, defaulting to image/png
whenever no such prefix is parseable. -/
def mimeFromPrefixSpec (url : String) : String :=
  match dataMimeAt url.data with
  | some m => String.mk m
  | none => "image/png"

/-- handleUseAsSource (Editor.tsx lines 145-163): when a pending generated
image exists, build the new ImageFile by spreading the previous current image
and overriding base64, previewUrl and mimeType, commit it through
addToHistory, clear the pending result and the refine-tool fields, and set
status READY; otherwise do nothing. -/
def handleUseAsSource (s : EditorState) : EditorState :=
  match s.generatedImage with
  | some g =>
      let mimeType := mimeFromUrl g.imageUrl
      let newImage : ImageFile :=
        { s.currentImage with
            base64 := g.imageUrl
            previewUrl := g.imageUrl
            mimeType := mimeType }
      let s1 := addToHistory s newImage
      { s1 with
          generatedImage := none
          targetObject := ""
          editAction := ""
          status := EditorStatus.READY }
  | none => s

/-- Math.min on the embedded display coordinates. -/
def jsMin (a b : ℚ) : ℚ := if a ≤ b then a else b

/-- Math.abs on the embedded display coordinates. -/
def jsAbs (x : ℚ) : ℚ := if x < 0 then -x else x

/-- A rectangle in natural pixel space. -/
structure CropRect where
  x : ℚ
  y : ℚ
  width : ℚ
  height : ℚ
deriving DecidableEq, Repr

/-- The coordinate computation inlined in applyCrop (Editor.tsx lines
230-243): independent per-axis scale factors naturalSize/displaySize, the
corner pair normalised with Math.min/Math.abs, and rejection (early return,
modelled as none) when either display-space dimension is below 10 pixels. -/
def computeCropRect (cropStart cropEnd : ℚ × ℚ)
    (displayW displayH naturalW naturalH : ℚ) : Option CropRect :=
  let scaleX := naturalW / displayW
  let scaleY := naturalH / displayH
  let startX := jsMin cropStart.1 cropEnd.1
  let startY := jsMin cropStart.2 cropEnd.2
  let width := jsAbs (cropEnd.1 - cropStart.1)
  let height := jsAbs (cropEnd.2 - cropStart.2)
  if width < 10 ∨ height < 10 then none
  else some { x := startX * scaleX, y := startY * scaleY,
              width := width * scaleX, height := height * scaleY }

/-- applyCrop (Editor.tsx lines 224-274). The mounted image element's display
and natural sizes are passed explicitly; canvas rasterization plus toDataURL
is the opaque rasterize argument (a function of the natural-space rectangle
and the encoding mime type). A missing selection, or a selection below the
10-display-pixel threshold, returns with the state untouched; otherwise the
cropped image is committed via addToHistory, the selection is cleared and any
pending generated result is discarded. -/
def applyCrop (s : EditorState) (displayW displayH naturalW naturalH : ℚ)
    (rasterize : CropRect → String → String) : EditorState :=
  match s.cropStart, s.cropEnd with
  | some cs, some ce =>
      match computeCropRect cs ce displayW displayH naturalW naturalH with
      | none => s
      | some rect =>
          let croppedBase64 := rasterize rect s.currentImage.mimeType
          let newImage : ImageFile :=
            { s.currentImage with base64 := croppedBase64, previewUrl := croppedBase64 }
          let s1 := addToHistory s newImage
          { s1 with cropStart := none, cropEnd := none, generatedImage := none }
  | _, _ => s

/-! Concrete fixtures used by witnesses and counterexamples. -/

/-- A first concrete working image. -/
def fileA : ImageFile :=
  { file := 0, previewUrl := "blob:a", base64 := "data:image/png;base64,AAAA",
    mimeType := "image/png" }

/-- A second concrete working image. -/
def fileB : ImageFile :=
  { file := 0, previewUrl := "blob:b", base64 := "data:image/png;base64,BBBB",
    mimeType := "image/png" }

/-- A third concrete working image. -/
def fileC : ImageFile :=
  { file := 0, previewUrl := "blob:c", base64 := "data:image/png;base64,CCCC",
    mimeType := "image/png" }

/-- A concrete pending generated result whose data URL has a jpeg prefix. -/
def genJpeg : GeneratedImage :=
  { imageUrl := "data:image/jpeg;base64,QQQQ", prompt := "edit", timestamp := 5 }

/-- A concrete generated result whose URL contains data:foo; yet not as a
prefix, separating the unanchored regex from a prefix parse. -/
def genOffsetUrl : GeneratedImage :=
  { imageUrl := "xdata:foo;", prompt := "edit", timestamp := 7 }

/-- The default edit configuration (no model override, no size). -/
def cfg0 : EditConfig := { model := none, imageSize := none }

/-- A response part carrying inline image data. -/
def partImg : ServicePart :=
  { inlineData := some ("image/png", "NEWDATA"), text := none }

/-- A response part carrying only text. -/
def partText : ServicePart :=
  { inlineData := none, text := some "cannot comply" }

/-- A fresh session over fileA. -/
def stReady1 : EditorState := initialEditorState fileA

/-- A session with an edit in flight. -/
def stProcessing : EditorState := { stReady1 with status := EditorStatus.PROCESSING }

/-- A two-entry session at the end of history with a pending COMPLETE
result. -/
def stComplete2 : EditorState :=
  { history := [fileA, fileB], historyIndex := 1, currentImage := fileB,
    generatedImage := some genJpeg, status := EditorStatus.COMPLETE,
    errorMessage := none, cropStart := none, cropEnd := none,
    targetObject := "mug", editAction := "recolor" }

/-- A three-entry session at the middle of history with a pending COMPLETE
result. -/
def stMid3 : EditorState :=
  { history := [fileA, fileB, fileC], historyIndex := 1, currentImage := fileB,
    generatedImage := some genJpeg, status := EditorStatus.COMPLETE,
    errorMessage := none, cropStart := none, cropEnd := none,
    targetObject := "", editAction := "" }

/-- A two-entry session that has been undone back to the first entry. -/
def stUndone2 : EditorState :=
  { history := [fileA, fileB], historyIndex := 0, currentImage := fileA,
    generatedImage := none, status := EditorStatus.READY,
    errorMessage := none, cropStart := none, cropEnd := none,
    targetObject := "", editAction := "" }

/-- A fresh session with a degenerate crop selection five pixels wide. -/
def stTinyCrop : EditorState :=
  { stReady1 with cropStart := some ((0 : ℚ), (0 : ℚ)),
                  cropEnd := some ((5 : ℚ), (50 : ℚ)) }

/-- A fresh session holding the offset-URL pending result. -/
def stGenOffset : EditorState := { stReady1 with generatedImage := some genOffsetUrl }

/-- A fresh session holding the jpeg pending result. -/
def stGenJpeg : EditorState := { stReady1 with generatedImage := some genJpeg }

/-- A constant rasterizer standing in for canvas drawImage + toDataURL. -/
def rasterConst : CropRect → String → String := fun _ _ => "data:image/png;base64,RAST"

/-- True exactly when the client call resolved (promise fulfilled) rather
than rejected. -/
def resolvesOk : Except String EditServiceResult → Bool
  | Except.ok _ => true
  | Except.error _ => false

/-! Helper lemmas about the response scan. -/

theorem scanStep_imageUrl_none (acc : EditServiceResult) (part : ServicePart)
    (hp : part.inlineData = none) (ha : acc.imageUrl = none) :
    (scanStep acc part).imageUrl = none := by
  simp only [scanStep, hp]
  cases part.text with
  | none => exact ha
  | some t =>
      show (if t.isEmpty = true then acc else { acc with text := some t }).imageUrl = none
      split
      · exact ha
      · exact ha

theorem scanFoldl_imageUrl_none (parts : List ServicePart) (acc : EditServiceResult)
    (h : ∀ p ∈ parts, p.inlineData = none) (ha : acc.imageUrl = none) :
    (parts.foldl scanStep acc).imageUrl = none := by
  induction parts generalizing acc with
  | nil => simpa using ha
  | cons p ps ih =>
      simp only [List.foldl_cons]
      exact ih _ (fun q hq => h q (List.mem_cons_of_mem _ hq))
        (scanStep_imageUrl_none acc p (h p (List.mem_cons_self _ _)) ha)

theorem scanParts_imageUrl_none (parts : List ServicePart)
    (h : ∀ p ∈ parts, p.inlineData = none) :
    (scanParts parts).imageUrl = none :=
  scanFoldl_imageUrl_none parts _ h rfl

/-- Claim C3: addToHistory discards every entry after the cursor, appends the
new state, advances the cursor to the new last index so that
history.length = cursor + 1 immediately afterwards, preserves the entries up
to and including the old cursor in order, and makes the new state current. -/
theorem c3_addToHistory_commit (s : EditorState) (img : ImageFile)
    (h : s.historyIndex < s.history.length) :
    (addToHistory s img).history = s.history.take (s.historyIndex + 1) ++ [img] ∧
    (addToHistory s img).historyIndex = s.historyIndex + 1 ∧
    (addToHistory s img).history.length = (addToHistory s img).historyIndex + 1 ∧
    (addToHistory s img).history.take (s.historyIndex + 1)
      = s.history.take (s.historyIndex + 1) ∧
    (addToHistory s img).currentImage = img := by
  refine ⟨rfl, ?_, ?_, ?_, rfl⟩
  · simp only [addToHistory, List.length_append, List.length_take, List.length_cons,
      List.length_nil]
    omega
  · simp only [addToHistory, List.length_append, List.length_take, List.length_cons,
      List.length_nil]
    omega
  · simp only [addToHistory]
    rw [List.take_append_of_le_length (by simp only [List.length_take]; omega),
      List.take_take]
    simp

/-- Witness for C3 at a two-entry history that was undone back to index 0:
the commit prunes the redo branch and re-establishes length = cursor + 1. -/
theorem c3_addToHistory_commit_witness :
    stUndone2.historyIndex < stUndone2.history.length ∧
    ((addToHistory stUndone2 fileC).history
        = stUndone2.history.take (stUndone2.historyIndex + 1) ++ [fileC] ∧
     (addToHistory stUndone2 fileC).historyIndex = stUndone2.historyIndex + 1 ∧
     (addToHistory stUndone2 fileC).history.length
        = (addToHistory stUndone2 fileC).historyIndex + 1 ∧
     (addToHistory stUndone2 fileC).history.take (stUndone2.historyIndex + 1)
        = stUndone2.history.take (stUndone2.historyIndex + 1) ∧
     (addToHistory stUndone2 fileC).currentImage = fileC) :=
  ⟨by decide, c3_addToHistory_commit stUndone2 fileC (by decide)⟩

/-- Claim C4: the invariants length ≥ 1 and cursor < length hold at session
creation and are preserved by addToHistory, undo and redo, and under them the
current entry history[cursor] is always defined. -/
theorem c4_history_invariants (img newImg : ImageFile) (s : EditorState)
    (h1 : 1 ≤ s.history.length) (h2 : s.historyIndex < s.history.length) :
    (1 ≤ (initialEditorState img).history.length ∧
       (initialEditorState img).historyIndex < (initialEditorState img).history.length) ∧
    (1 ≤ (addToHistory s newImg).history.length ∧
       (addToHistory s newImg).historyIndex < (addToHistory s newImg).history.length) ∧
    (1 ≤ (undo s).history.length ∧ (undo s).historyIndex < (undo s).history.length) ∧
    (1 ≤ (redo s).history.length ∧ (redo s).historyIndex < (redo s).history.length) ∧
    (s.history[s.historyIndex]?).isSome = true := by
  refine ⟨⟨by simp [initialEditorState], by simp [initialEditorState]⟩,
    ⟨?_, ?_⟩, ?_, ?_, ?_⟩
  · simp only [addToHistory, List.length_append, List.length_take, List.length_cons,
      List.length_nil]
    omega
  · simp only [addToHistory, List.length_append, List.length_take, List.length_cons,
      List.length_nil]
    omega
  · unfold undo
    split
    · refine ⟨h1, ?_⟩
      show s.historyIndex - 1 < s.history.length
      omega
    · exact ⟨h1, h2⟩
  · unfold redo
    split
    · next hc =>
        refine ⟨h1, ?_⟩
        show s.historyIndex + 1 < s.history.length
        exact hc
    · exact ⟨h1, h2⟩
  · simp [List.getElem?_eq_getElem h2]

/-- Witness for C4 at a three-entry mid-history session. -/
theorem c4_history_invariants_witness :
    (1 ≤ stMid3.history.length ∧ stMid3.historyIndex < stMid3.history.length) ∧
    ((1 ≤ (initialEditorState fileA).history.length ∧
        (initialEditorState fileA).historyIndex
          < (initialEditorState fileA).history.length) ∧
     (1 ≤ (addToHistory stMid3 fileB).history.length ∧
        (addToHistory stMid3 fileB).historyIndex
          < (addToHistory stMid3 fileB).history.length) ∧
     (1 ≤ (undo stMid3).history.length ∧
        (undo stMid3).historyIndex < (undo stMid3).history.length) ∧
     (1 ≤ (redo stMid3).history.length ∧
        (redo stMid3).historyIndex < (redo stMid3).history.length) ∧
     (stMid3.history[stMid3.historyIndex]?).isSome = true) :=
  ⟨⟨by decide, by decide⟩,
   c4_history_invariants fileA fileB stMid3 (by decide) (by decide)⟩

/-- Claim C9: undo at cursor 0 and redo at cursor length - 1 take the
guarded branch not at all — the session state is returned unchanged (the
spec's false return corresponds to the skipped branch of the void TS
handlers). -/
theorem c9_undo_redo_boundary (s t : EditorState)
    (h0 : s.historyIndex = 0) (h1 : t.historyIndex = t.history.length - 1) :
    undo s = s ∧ redo t = t := by
  constructor
  · unfold undo
    rw [if_neg (by omega)]
  · unfold redo
    rw [if_neg (by omega)]

/-- Witness for C9: a fresh one-entry session for undo and a two-entry
session at the last index for redo. -/
theorem c9_undo_redo_boundary_witness :
    stReady1.historyIndex = 0 ∧
    stComplete2.historyIndex = stComplete2.history.length - 1 ∧
    (undo stReady1 = stReady1 ∧ redo stComplete2 = stComplete2) :=
  ⟨by decide, by decide, c9_undo_redo_boundary stReady1 stComplete2 (by decide) (by decide)⟩

/-- Counterexample to claim C6: at a COMPLETE (non-Processing) session, undo
moves the cursor and clears the pending preview, yet the status stays
COMPLETE — the handlers never call setStatus, so READY is not forced. -/
theorem c6_undo_status_counterexample :
    stComplete2.status ≠ EditorStatus.PROCESSING ∧
    (undo stComplete2).historyIndex = 0 ∧
    (undo stComplete2).generatedImage = none ∧
    (undo stComplete2).status = EditorStatus.COMPLETE ∧
    (undo stComplete2).status ≠ EditorStatus.READY := by
  decide

/-- Claim C6 amended: in any state with an interior cursor, undo and redo
move the cursor and discard the pending generated preview, but leave the
status, the error message and the history unchanged — they do not force the
status to READY. -/
theorem c6_undo_redo_amended (s : EditorState)
    (hlo : 0 < s.historyIndex) (hhi : s.historyIndex + 1 < s.history.length) :
    ((undo s).historyIndex = s.historyIndex - 1 ∧
     (undo s).generatedImage = none ∧
     (undo s).status = s.status ∧
     (undo s).errorMessage = s.errorMessage ∧
     (undo s).history = s.history) ∧
    ((redo s).historyIndex = s.historyIndex + 1 ∧
     (redo s).generatedImage = none ∧
     (redo s).status = s.status ∧
     (redo s).errorMessage = s.errorMessage ∧
     (redo s).history = s.history) := by
  constructor
  · unfold undo
    rw [if_pos hlo]
    exact ⟨rfl, rfl, rfl, rfl, rfl⟩
  · unfold redo
    rw [if_pos hhi]
    exact ⟨rfl, rfl, rfl, rfl, rfl⟩

/-- Witness for the amended C6 at the mid-history COMPLETE session. -/
theorem c6_undo_redo_amended_witness :
    (0 < stMid3.historyIndex ∧ stMid3.historyIndex + 1 < stMid3.history.length) ∧
    (((undo stMid3).historyIndex = stMid3.historyIndex - 1 ∧
      (undo stMid3).generatedImage = none ∧
      (undo stMid3).status = stMid3.status ∧
      (undo stMid3).errorMessage = stMid3.errorMessage ∧
      (undo stMid3).history = stMid3.history) ∧
     ((redo stMid3).historyIndex = stMid3.historyIndex + 1 ∧
      (redo stMid3).generatedImage = none ∧
      (redo stMid3).status = stMid3.status ∧
      (redo stMid3).errorMessage = stMid3.errorMessage ∧
      (redo stMid3).history = stMid3.history)) :=
  ⟨⟨by decide, by decide⟩, c6_undo_redo_amended stMid3 (by decide) (by decide)⟩

/-- Claim C7: with display size 400x300, natural size 800x600 and a drag
from (10,10) to (110,60), the crop computation maps through the independent
per-axis scale factors 800/400 and 600/300 to the natural-pixel rectangle
with x 20, y 20, width 200 and height 100. -/
theorem c7_crop_mapping_example :
    computeCropRect ((10 : ℚ), (10 : ℚ)) ((110 : ℚ), (60 : ℚ)) 400 300 800 600
      = some { x := 20, y := 20, width := 200, height := 100 } := by
  simp only [computeCropRect, jsMin, jsAbs]
  norm_num

/-- Claim C8: a selection spanning fewer than 10 display pixels in either
axis is rejected — the crop computation yields none and applyCrop returns
the session state unchanged: no rasterization, no history commit, current
image and pending result untouched. -/
theorem c8_degenerate_crop_rejected (s : EditorState) (cs ce : ℚ × ℚ)
    (dW dH nW nH : ℚ) (rasterize : CropRect → String → String)
    (hs : s.cropStart = some cs) (he : s.cropEnd = some ce)
    (hsmall : jsAbs (ce.1 - cs.1) < 10 ∨ jsAbs (ce.2 - cs.2) < 10) :
    computeCropRect cs ce dW dH nW nH = none ∧
    applyCrop s dW dH nW nH rasterize = s := by
  have hnone : computeCropRect cs ce dW dH nW nH = none := by
    simp only [computeCropRect]
    rw [if_pos hsmall]
  refine ⟨hnone, ?_⟩
  unfold applyCrop
  simp only [hs, he, hnone]

/-- Witness for C8: a drag spanning 5 display pixels in width. -/
theorem c8_degenerate_crop_rejected_witness :
    stTinyCrop.cropStart = some ((0 : ℚ), (0 : ℚ)) ∧
    stTinyCrop.cropEnd = some ((5 : ℚ), (50 : ℚ)) ∧
    (jsAbs ((5 : ℚ) - 0) < 10 ∨ jsAbs ((50 : ℚ) - 0) < 10) ∧
    (computeCropRect ((0 : ℚ), (0 : ℚ)) ((5 : ℚ), (50 : ℚ)) 400 300 800 600 = none ∧
     applyCrop stTinyCrop 400 300 800 600 rasterConst = stTinyCrop) :=
  ⟨rfl, rfl, Or.inl (by norm_num [jsAbs]),
   c8_degenerate_crop_rejected stTinyCrop ((0 : ℚ), (0 : ℚ)) ((5 : ℚ), (50 : ℚ))
     400 300 800 600 rasterConst rfl rfl (Or.inl (by norm_num [jsAbs]))⟩

/-- Claim C1 evaluated at its failing input: with an edit already in flight
(status PROCESSING), a re-entrant call through the unguarded custom-prompt
path is not a no-op — handleGenerate carries no PROCESSING check, so the
session is driven to COMPLETE with a fresh pending result. -/
theorem c1_processing_reentry_not_noop :
    (handleGenerate stProcessing "make it blue" cfg0 1
        (fun _ => Except.ok (some [partImg]))).status = EditorStatus.COMPLETE ∧
    handleGenerate stProcessing "make it blue" cfg0 1
        (fun _ => Except.ok (some [partImg])) ≠ stProcessing := by
  decide

/-- Counterexample to claim C2: a rejected remote call propagates out of
editImageWithGemini unchanged (the catch block logs and re-throws), so the
promise rejects instead of resolving to a Failure value. -/
theorem c2_propagation_counterexample :
    editImageWithGemini "data:image/png;base64,AAAA" "image/png" "edit" cfg0
        (fun _ => Except.error "network down")
      = Except.error "network down" ∧
    resolvesOk (editImageWithGemini "data:image/png;base64,AAAA" "image/png" "edit" cfg0
        (fun _ => Except.error "network down")) = false := by
  constructor
  · rfl
  · rfl

/-- Claim C2 amended: editImageWithGemini re-throws every transport or
service failure unchanged — the promise rejects with the original error and
never resolves; converting failures into state is done by the caller
handleGenerate, not by the client. -/
theorem c2_error_rethrown (base64Image mimeType prompt err : String)
    (config : EditConfig) :
    editImageWithGemini base64Image mimeType prompt config
        (fun _ => Except.error err) = Except.error err ∧
    resolvesOk (editImageWithGemini base64Image mimeType prompt config
        (fun _ => Except.error err)) = false := by
  constructor
  · rfl
  · rfl

/-- Claim C5: when the remote response carries no image part (text only or
nothing), handleGenerate with a non-empty prompt lands in ERROR, never
COMPLETE; the stored reason is the default no-image message (which satisfies
the claim's text-or-default disjunction through the default), and no pending
generated image is stored — the field keeps its previous value. -/
theorem c5_text_only_is_failure (s : EditorState) (prompt : String)
    (config : EditConfig) (ts : Nat) (parts : List ServicePart)
    (hp : (jsTrim prompt).isEmpty = false)
    (hno : ∀ p ∈ parts, p.inlineData = none) :
    (handleGenerate s prompt config ts (fun _ => Except.ok (some parts))).status
        = EditorStatus.ERROR ∧
    (handleGenerate s prompt config ts (fun _ => Except.ok (some parts))).status
        ≠ EditorStatus.COMPLETE ∧
    (handleGenerate s prompt config ts (fun _ => Except.ok (some parts))).errorMessage
        = some "The model did not return an image." ∧
    (handleGenerate s prompt config ts (fun _ => Except.ok (some parts))).generatedImage
        = s.generatedImage := by
  have himg : (scanParts parts).imageUrl = none := scanParts_imageUrl_none parts hno
  simp [handleGenerate, editImageWithGemini, hp, himg]

/-- Witness for C5: a fresh session, the prompt edit, and a single
text-only response part. -/
theorem c5_text_only_is_failure_witness :
    (jsTrim "edit").isEmpty = false ∧
    (∀ p ∈ [partText], p.inlineData = none) ∧
    ((handleGenerate stReady1 "edit" cfg0 3 (fun _ => Except.ok (some [partText]))).status
        = EditorStatus.ERROR ∧
     (handleGenerate stReady1 "edit" cfg0 3 (fun _ => Except.ok (some [partText]))).status
        ≠ EditorStatus.COMPLETE ∧
     (handleGenerate stReady1 "edit" cfg0 3
        (fun _ => Except.ok (some [partText]))).errorMessage
        = some "The model did not return an image." ∧
     (handleGenerate stReady1 "edit" cfg0 3
        (fun _ => Except.ok (some [partText]))).generatedImage
        = stReady1.generatedImage) :=
  ⟨by decide, by decide,
   c5_text_only_is_failure stReady1 "edit" cfg0 3 [partText] (by decide) (by decide)⟩

/-- Counterexample to claim C10: the mime regex data:([^;]+); is unanchored.
For the pending URL xdata:foo; no data:<mime>; PREFIX is parseable, so the
claim demands the image/png default, yet the committed mime type is foo,
captured from the middle of the string. -/
theorem c10_mime_counterexample :
    (handleUseAsSource stGenOffset).currentImage.mimeType = "foo" ∧
    mimeFromPrefixSpec genOffsetUrl.imageUrl = "image/png" ∧
    (handleUseAsSource stGenOffset).currentImage.mimeType
      ≠ mimeFromPrefixSpec genOffsetUrl.imageUrl := by
  decide

/-- Claim C10 amended: when a pending generated image exists,
handleUseAsSource commits a new image whose base64 and previewUrl are the
generated URL, whose mime type is the capture of the first occurrence of
data:<mime>; anywhere in that URL (defaulting to image/png when there is
none), and whose remaining field — the original file handle — is carried
over unchanged from the previous current image; the pending result is
cleared and the status set to READY. -/
theorem c10_use_as_source_amended (s : EditorState) (g : GeneratedImage)
    (h : s.generatedImage = some g) :
    (handleUseAsSource s).currentImage.base64 = g.imageUrl ∧
    (handleUseAsSource s).currentImage.previewUrl = g.imageUrl ∧
    (handleUseAsSource s).currentImage.mimeType = mimeFromUrl g.imageUrl ∧
    (handleUseAsSource s).currentImage.file = s.currentImage.file ∧
    (handleUseAsSource s).generatedImage = none ∧
    (handleUseAsSource s).status = EditorStatus.READY := by
  unfold handleUseAsSource
  rw [h]
  exact ⟨rfl, rfl, rfl, rfl, rfl, rfl⟩

/-- Witness for the amended C10 with a jpeg-prefixed pending URL. -/
theorem c10_use_as_source_amended_witness :
    stGenJpeg.generatedImage = some genJpeg ∧
    ((handleUseAsSource stGenJpeg).currentImage.base64 = genJpeg.imageUrl ∧
     (handleUseAsSource stGenJpeg).currentImage.previewUrl = genJpeg.imageUrl ∧
     (handleUseAsSource stGenJpeg).currentImage.mimeType = mimeFromUrl genJpeg.imageUrl ∧
     (handleUseAsSource stGenJpeg).currentImage.file = stGenJpeg.currentImage.file ∧
     (handleUseAsSource stGenJpeg).generatedImage = none ∧
     (handleUseAsSource stGenJpeg).status = EditorStatus.READY) :=
  ⟨rfl, c10_use_as_source_amended stGenJpeg genJpeg rfl⟩

end NanoSnap
